import Mathlib

/-!
Verification development for the DynamO event-driven dynamics kernel.

The definitions below are a shallow embedding of the C++ core:

* `src/src/dynamics/liouvillean/NewtonL.cpp` — the Newtonian Liouvillean:
  free streaming, collision-time prediction (`SphereSphereInRoot`,
  `SphereSphereOutRoot`, `CubeCubeInRoot`, `getCylinderWallCollision`) and
  collision response (`SmoothSpheresColl`, `SphereWellEvent`).
* `src/src/dynamics/dynamics.cpp` — the `Dynamics` registry: the `add*`
  operations, `initialise`, and the copy constructor.

Numeric code is embedded polymorphically over a `LinearOrderedField` so the
definitions stay computable; the claim theorems instantiate the field at `ℝ`
with `Real.sqrt` supplied for the square roots.  Machine-float special values
(NaN, ±inf) only matter for the NaN-to-infinity mapping in
`SphereSphereOutRoot` / `getCylinderWallCollision`; those two computations are
embedded over a small IEEE-style value domain `RVal` that tracks NaN and the
infinities symbolically.
-/

namespace DynamO

variable {K : Type} [LinearOrderedField K]

/-- Fixed-dimension real vector, `NDIM = 3` as in the C++ sources. -/
structure Vec3 (K : Type) where
  x : K
  y : K
  z : K
deriving DecidableEq

namespace Vec3

instance : Add (Vec3 K) := ⟨fun a b => ⟨a.x + b.x, a.y + b.y, a.z + b.z⟩⟩
instance : Sub (Vec3 K) := ⟨fun a b => ⟨a.x - b.x, a.y - b.y, a.z - b.z⟩⟩
instance : Neg (Vec3 K) := ⟨fun a => ⟨-a.x, -a.y, -a.z⟩⟩
instance : SMul K (Vec3 K) := ⟨fun c a => ⟨c * a.x, c * a.y, c * a.z⟩⟩
instance : Zero (Vec3 K) := ⟨⟨0, 0, 0⟩⟩

/-- The `operator|` of the C++ vector class: the dot product. -/
def dot (a b : Vec3 K) : K := a.x * b.x + a.y * b.y + a.z * b.z

/-- Squared norm, `Vector::nrm2()`. -/
def nrm2 (a : Vec3 K) : K := a.dot a

/-- Component access, mirroring `v[iDim]` in the C++ loops. -/
def comp (a : Vec3 K) : Fin 3 → K
  | 0 => a.x
  | 1 => a.y
  | 2 => a.z

end Vec3

/-- Particle kinematic state (`Particle`): position and velocity.  The id and
timestamp fields play no role in the embedded routines. -/
structure Particle (K : Type) where
  pos : Vec3 K
  vel : Vec3 K
deriving DecidableEq

/-- Free streaming, `LNewtonian::streamParticle`: ballistic flight,
`particle.getPosition() += particle.getVelocity() * dt`. -/
def streamParticle (p : Particle K) (dt : K) : Particle K :=
  { p with pos := p.pos + dt • p.vel }

/-- The transient per-pair prediction record `CPDData`: relative position
`rij`, relative velocity `vij`, and the cached scalars `r2 = |rij|²`,
`v2 = |vij|²`, `rvdot = rij·vij`.  The `dt` output slot is modelled as the
return value of each prediction function. -/
structure CPDData (K : Type) where
  rij : Vec3 K
  vij : Vec3 K
  r2 : K
  v2 : K
  rvdot : K
deriving DecidableEq

/-- Modelled from the spec: `CPDData` construction for a particle pair (the
constructor lives in a header outside `src/`): the relative position and
velocity with the cached scalar products, in the boundary-corrected frame
(infinite boundary conditions, so the correction is the identity). -/
def mkCPD (r1 r2 v1 v2 : Vec3 K) : CPDData K :=
  let rij := r1 - r2
  let vij := v1 - v2
  ⟨rij, vij, rij.nrm2, vij.nrm2, rij.dot vij⟩

/-- Prediction function `LNewtonian::SphereSphereInRoot`: time to contact of two approaching
spheres.  `some dt` stands for `return true` with `dat.dt = dt`; `none` for
`return false`.  `sqrtF` is the square-root function of the scalar field. -/
def SphereSphereInRoot (sqrtF : K → K) (dat : CPDData K) (d2 : K) : Option K :=
  if dat.rvdot < 0 then
    let arg := dat.rvdot * dat.rvdot - dat.v2 * (dat.r2 - d2)
    if arg > 0 then
      some ((d2 - dat.r2) / (dat.rvdot - sqrtF arg))
    else
      none
  else
    none

/-- Result of a two-body collision response: the post-collision velocities of
the two particles and the `dP` impulse recorded in the returned
`PairEventData`. -/
structure CollResult (K : Type) where
  vel1 : Vec3 K
  vel2 : Vec3 K
  dP : Vec3 K
deriving DecidableEq

/-- Response routine `LNewtonian::SmoothSpheresColl`: smooth-sphere collision response with
restitution `e`.  The relative position `rij = r1 − r2` and relative velocity
`vij = v1 − v2` follow the `PairEventData` construction (header outside
`src/`; modelled from the spec, with the boundary correction the identity).
The three branches special-case the infinite-mass sentinel `mass = 0` exactly
as the C++ does; in the both-sentinel branch the particles are collided as
identical unit masses and the recorded `dP` is then zeroed
(`retVal.dP *= !isInfInf`). -/
def SmoothSpheresColl [DecidableEq K] (e m1 m2 : K)
    (r1 r2 : Vec3 K) (v1 v2 : Vec3 K) : CollResult K :=
  let rij := r1 - r2
  let vijold := v1 - v2
  let rvdot := rij.dot vijold
  if m1 = 0 ∧ m2 ≠ 0 then
    let dP := (m2 * ((1 + e) * rvdot / rij.nrm2)) • rij
    ⟨v1, v2 + (1 / m2) • dP, dP⟩
  else if m1 ≠ 0 ∧ m2 = 0 then
    let dP := (m1 * ((1 + e) * rvdot / rij.nrm2)) • rij
    ⟨v1 - (1 / m1) • dP, v2, dP⟩
  else
    let isInfInf := m1 = 0 ∧ m2 = 0
    let p1Mass := if isInfInf then 1 else m1
    let p2Mass := if isInfInf then 1 else m2
    let mu := p1Mass * p2Mass / (p1Mass + p2Mass)
    let dP := ((1 + e) * mu * rvdot / rij.nrm2) • rij
    ⟨v1 - (1 / p1Mass) • dP, v2 + (1 / p2Mass) • dP,
     if isInfInf then 0 else dP⟩

/-- The `largedim` loop of `LNewtonian::CubeCubeInRoot`: the index of the
component of `rij` with the largest magnitude (the first such index on ties,
as the loop updates only on a strict increase). -/
def largedim (r : Vec3 K) : Fin 3 :=
  let l1 : Fin 3 := if |r.comp 1| > |r.comp 0| then 1 else 0
  if |r.comp 2| > |r.comp l1| then 2 else l1

/-- The `tInMax` fold of `CubeCubeInRoot`: the per-axis entry time is the
smaller of `-(rij[i]+d)/vij[i]` and `-(rij[i]-d)/vij[i]` (the
`tmptime1 < tmptime2` swap in the loop) and the slab entry time is their
maximum over the three axes.  The C++ folds from `-HUGE_VAL`; with every
`vij` component nonzero all per-axis times are finite and the fold equals
this maximum. -/
def cubeEntryTime (dat : CPDData K) (d : K) : K :=
  max (max
    (min (-(dat.rij.comp 0 + d) / dat.vij.comp 0) (-(dat.rij.comp 0 - d) / dat.vij.comp 0))
    (min (-(dat.rij.comp 1 + d) / dat.vij.comp 1) (-(dat.rij.comp 1 - d) / dat.vij.comp 1)))
    (min (-(dat.rij.comp 2 + d) / dat.vij.comp 2) (-(dat.rij.comp 2 - d) / dat.vij.comp 2))

/-- The `tOutMin` fold of `CubeCubeInRoot`: the minimum over the three axes
of the larger per-axis time (folded from `HUGE_VAL` in the C++). -/
def cubeExitTime (dat : CPDData K) (d : K) : K :=
  min (min
    (max (-(dat.rij.comp 0 + d) / dat.vij.comp 0) (-(dat.rij.comp 0 - d) / dat.vij.comp 0))
    (max (-(dat.rij.comp 1 + d) / dat.vij.comp 1) (-(dat.rij.comp 1 - d) / dat.vij.comp 1)))
    (max (-(dat.rij.comp 2 + d) / dat.vij.comp 2) (-(dat.rij.comp 2 - d) / dat.vij.comp 2))

/-- Prediction function `LNewtonian::CubeCubeInRoot`: axis-aligned cube-cube contact prediction.
Fast reject when the largest-separation component is not shrinking; otherwise
slab intersection — contact iff the entry time (max of per-axis entries) is
strictly before the exit time (min of per-axis exits), with `dt` the entry
time.  (The per-axis divisions match the C++ only when every `vij` component
is nonzero; the C++ produces infinite per-axis times from `vij[i] == 0`.) -/
def CubeCubeInRoot (dat : CPDData K) (d : K) : Option K :=
  if dat.rij.comp (largedim dat.rij) * dat.vij.comp (largedim dat.rij) ≥ 0 then none
  else
    if cubeEntryTime dat d ≥ cubeExitTime dat d then none
    else some (cubeEntryTime dat d)

/-- IEEE-style extended value domain for the computations whose NaN handling
the code inspects (`boost::math::isnan`): a finite value, the two infinities,
or NaN.  Zero is unsigned in this model (treated as `+0`). -/
inductive RVal (K : Type) where
  | fin (x : K)
  | pinf
  | ninf
  | nan
deriving DecidableEq

namespace RVal

/-- The `boost::math::isnan` test. -/
def isNaN : RVal K → Bool
  | nan => true
  | _ => false

/-- IEEE subtraction on the extended domain. -/
def sub : RVal K → RVal K → RVal K
  | nan, _ => nan
  | fin _, nan => nan
  | fin a, fin b => fin (a - b)
  | fin _, pinf => ninf
  | fin _, ninf => pinf
  | pinf, nan => nan
  | pinf, fin _ => pinf
  | pinf, pinf => nan
  | pinf, ninf => pinf
  | ninf, nan => nan
  | ninf, fin _ => ninf
  | ninf, pinf => ninf
  | ninf, ninf => nan

/-- IEEE division on the extended domain (`0` read as `+0`): `0/0` and
`inf/inf` are NaN, a nonzero finite value over `0` is a signed infinity. -/
def div : RVal K → RVal K → RVal K
  | nan, _ => nan
  | fin _, nan => nan
  | fin a, fin b =>
      if b = 0 then
        if a = 0 then nan else if a > 0 then pinf else ninf
      else fin (a / b)
  | fin _, pinf => fin 0
  | fin _, ninf => fin 0
  | pinf, nan => nan
  | pinf, fin b => if b < 0 then ninf else pinf
  | pinf, pinf => nan
  | pinf, ninf => nan
  | ninf, nan => nan
  | ninf, fin b => if b < 0 then pinf else ninf
  | ninf, pinf => nan
  | ninf, ninf => nan

/-- The `std::sqrt` call on the extended domain: NaN on negative arguments. -/
def sqrtV (sqrtF : K → K) : RVal K → RVal K
  | nan => nan
  | pinf => pinf
  | ninf => nan
  | fin x => if x < 0 then nan else fin (sqrtF x)

end RVal

/-- The root computed by `LNewtonian::SphereSphereOutRoot` before its NaN
check: `(√(rv² − v²(r² − d²)) − rv) / v²`. -/
def SphereSphereOutRootVal (sqrtF : K → K) (dat : CPDData K) (d2 : K) : RVal K :=
  RVal.div
    (RVal.sub
      (RVal.sqrtV sqrtF (RVal.fin (dat.rvdot * dat.rvdot - dat.v2 * (dat.r2 - d2))))
      (RVal.fin dat.rvdot))
    (RVal.fin dat.v2)

/-- Prediction function `LNewtonian::SphereSphereOutRoot`: the exit root of a well interaction;
on a NaN root the record's `dt` is set to `HUGE_VAL` and the function returns
false. -/
def SphereSphereOutRoot (sqrtF : K → K) (dat : CPDData K) (d2 : K) :
    RVal K × Bool :=
  let dt := SphereSphereOutRootVal sqrtF dat d2
  if dt.isNaN then (RVal.pinf, false) else (dt, true)

/-- The root computed by `LNewtonian::getCylinderWallCollision` before its
NaN check: project `rij` and the velocity out of the axis direction, then
`(√(B² − AC) − B) / A` with `B = v·r`, `A = |v|²`, `C = |r|² − radius²`
(identity boundary conditions). -/
def cylinderCollisionRoot (sqrtF : K → K) (pos velIn wallLoc wallNorm : Vec3 K)
    (radius : K) : RVal K :=
  let rij0 := pos - wallLoc
  let rij := rij0 - (rij0.dot wallNorm) • wallNorm
  let v := velIn - (velIn.dot wallNorm) • wallNorm
  let B := v.dot rij
  let A := v.nrm2
  let C := rij.nrm2 - radius * radius
  RVal.div (RVal.sub (RVal.sqrtV sqrtF (RVal.fin (B * B - A * C))) (RVal.fin B))
    (RVal.fin A)

/-- Prediction function `LNewtonian::getCylinderWallCollision`: returns `HUGE_VAL` when the
computed root is NaN, otherwise the root. -/
def getCylinderWallCollision (sqrtF : K → K) (pos velIn wallLoc wallNorm : Vec3 K)
    (radius : K) : RVal K :=
  let t := cylinderCollisionRoot sqrtF pos velIn wallLoc wallNorm radius
  if t.isNaN then RVal.pinf else t

/-- Event-type tags (`EEventType`) reachable from `SphereWellEvent`. -/
inductive EEventType where
  | BOUNCE
  | NON_EVENT
  | WELL_KEDOWN
  | WELL_KEUP
deriving DecidableEq

/-- Result of `SphereWellEvent`: the event tag written into the `IntEvent`
and `PairEventData`, the two post-event velocities, and the impulse `dP`. -/
structure WellResult (K : Type) where
  eType : EEventType
  vel1 : Vec3 K
  vel2 : Vec3 K
  dP : Vec3 K
deriving DecidableEq

/-- Response routine `LNewtonian::SphereWellEvent`: square-well capture/escape response for a
requested kinetic-energy change `deltaKE`.  Relative kinematics
(`rij = r1 − r2`, `vijold = v1 − v2`) follow the `PairEventData` construction
(modelled from the spec, identity boundary conditions), and the branch
structure reproduces the C++ exactly: a BOUNCE when `deltaKE < 0` and the
discriminant `rv² + 2R²ΔKE/μ` is negative, a zero-impulse NON_EVENT when
`deltaKE == 0`, and otherwise a well-crossing tagged by the sign of
`deltaKE` whose root branch is selected by the sign of `rv`. -/
def SphereWellEvent [DecidableEq K] (sqrtF : K → K) (deltaKE m1 m2 : K)
    (r1 r2 v1 v2 : Vec3 K) : WellResult K :=
  let rij := r1 - r2
  let vijold := v1 - v2
  let rvdot := rij.dot vijold
  let mu := m1 * m2 / (m1 + m2)
  let R2 := rij.nrm2
  let sqrtArg := rvdot * rvdot + 2 * R2 * deltaKE / mu
  let td : EEventType × Vec3 K :=
    if deltaKE < 0 ∧ sqrtArg < 0 then
      (EEventType.BOUNCE, (2 * mu * rvdot / R2) • rij)
    else if deltaKE = 0 then
      (EEventType.NON_EVENT, 0)
    else
      (if deltaKE < 0 then EEventType.WELL_KEDOWN else EEventType.WELL_KEUP,
       if rvdot < 0 then (2 * deltaKE / (sqrtF sqrtArg - rvdot)) • rij
       else (-2 * deltaKE / (rvdot + sqrtF sqrtArg)) • rij)
  ⟨td.1, v1 - (1 / m1) • td.2, v2 + (1 / m2) • td.2, td.2⟩

/-- Modelled from the spec: the external simulation-status enum (declared in
a header outside `src/`), with the ordering
`UNINITIALISED < CONFIGURING < INITIALISED < RUNNING`. -/
inductive SimStatus where
  | UNINITIALISED
  | CONFIGURING
  | INITIALISED
  | RUNNING
deriving DecidableEq

/-- Position of a status in the enum ordering. -/
def SimStatus.toNat : SimStatus → Nat
  | UNINITIALISED => 0
  | CONFIGURING => 1
  | INITIALISED => 2
  | RUNNING => 3

/-- The `Sim->status >= INITIALISED` comparison. -/
def statusGE (a b : SimStatus) : Bool := b.toNat ≤ a.toNat

/-- A registered Species: its name and, once `addSpecies` has matched it, the
name of its Interaction (`setIntPtr`). -/
structure Species where
  name : String
  intName : Option String := none
deriving DecidableEq

/-- A registered Interaction: its name and its `isInteraction(Species)`
classification predicate. -/
structure Interaction where
  name : String
  matchesSpecies : Species → Bool

/-- A registered Global event source (opaque here beyond its name). -/
structure GlobalEv where
  name : String
deriving DecidableEq

/-- A registered Local event source. -/
structure LocalEv where
  name : String
deriving DecidableEq

/-- A registered System event source. -/
structure SystemEv where
  name : String
deriving DecidableEq

/-- A registered Topology structure. -/
structure Topology where
  name : String
deriving DecidableEq

/-- The `Dynamics` registry (dynamics.cpp): the simulation status reachable
through the `SimBase` handle, the boundary-condition and units handles, the
optional Liouvillean, and the owned collections. -/
structure Dynamics where
  status : SimStatus
  p_BC : String
  units : String
  p_liouvillean : Option String
  species : List Species
  interactions : List Interaction
  globals : List GlobalEv
  locals : List LocalEv
  systems : List SystemEv
  topology : List Topology

/-- Registry operation `Dynamics::addSpecies`: refuses once the simulation is initialised;
otherwise appends the species and binds it to the first matching interaction,
or reports an error (with the species already appended, as the C++ throws
after `push_back`) when no interaction claims it.  The `Option String` is the
thrown error message, `none` on success. -/
def Dynamics.addSpecies (d : Dynamics) (sp : Species) : Dynamics × Option String :=
  if statusGE d.status SimStatus.INITIALISED then
    (d, some "Cannot add species after simulation initialisation")
  else
    match d.interactions.find? (fun intPtr => intPtr.matchesSpecies sp) with
    | some intPtr =>
        ({ d with species := d.species ++ [{ sp with intName := some intPtr.name }] },
         none)
    | none =>
        ({ d with species := d.species ++ [sp] },
         some "Could not find the interaction for the species")

/-- Registry operation `Dynamics::addGlobal`: refuses once initialised, else appends. -/
def Dynamics.addGlobal (d : Dynamics) (g : GlobalEv) : Dynamics × Option String :=
  if statusGE d.status SimStatus.INITIALISED then
    (d, some "Cannot add global events after simulation initialisation")
  else
    ({ d with globals := d.globals ++ [g] }, none)

/-- Registry operation `Dynamics::addLocal`: refuses once initialised, else appends. -/
def Dynamics.addLocal (d : Dynamics) (l : LocalEv) : Dynamics × Option String :=
  if statusGE d.status SimStatus.INITIALISED then
    (d, some "Cannot add local events after simulation initialisation")
  else
    ({ d with locals := d.locals ++ [l] }, none)

/-- Registry operation `Dynamics::addSystem`: refuses once initialised, else appends. -/
def Dynamics.addSystem (d : Dynamics) (s : SystemEv) : Dynamics × Option String :=
  if statusGE d.status SimStatus.INITIALISED then
    (d, some "Cannot add system events at this time, system is initialised")
  else
    ({ d with systems := d.systems ++ [s] }, none)

/-- Registry operation `Dynamics::addStructure`: refuses once initialised, else appends to the
topology collection. -/
def Dynamics.addStructure (d : Dynamics) (t : Topology) : Dynamics × Option String :=
  if statusGE d.status SimStatus.INITIALISED then
    (d, some "Cannot add structure after simulation initialisation")
  else
    ({ d with topology := d.topology ++ [t] }, none)

/-- Registry operation `Dynamics::addInteraction` (dynamics.cpp:265-271): appends the
interaction and returns it.  Unlike the other add operations it performs no
status check. -/
def Dynamics.addInteraction (d : Dynamics) (i : Interaction) :
    Dynamics × Option String :=
  ({ d with interactions := d.interactions ++ [i] }, none)

/-- Copy constructor `Dynamics::Dynamics(const Dynamics&)` (dynamics.cpp:346-350): copies the
`SimBase` base (the simulation handle, hence the status), the
boundary-condition handle and the units; every owned collection is
default-constructed empty and no Liouvillean is set. -/
def Dynamics.copyCtor (d : Dynamics) : Dynamics :=
  { status := d.status
    p_BC := d.p_BC
    units := d.units
    p_liouvillean := none
    species := []
    interactions := []
    globals := []
    locals := []
    systems := []
    topology := [] }

/-- A concrete registry that has reached `INITIALISED`, with all collections
empty. -/
def sampleDynamics : Dynamics :=
  ⟨SimStatus.INITIALISED, "PBC", "SimUnits", none, [], [], [], [], [], []⟩

end DynamO

namespace DynamO

variable {K : Type} [LinearOrderedField K]

namespace Vec3

theorem add_def (a b : Vec3 K) : a + b = ⟨a.x + b.x, a.y + b.y, a.z + b.z⟩ := rfl

theorem sub_def (a b : Vec3 K) : a - b = ⟨a.x - b.x, a.y - b.y, a.z - b.z⟩ := rfl

theorem smul_def (c : K) (a : Vec3 K) : c • a = ⟨c * a.x, c * a.y, c * a.z⟩ := rfl

theorem zero_def : (0 : Vec3 K) = ⟨0, 0, 0⟩ := rfl

theorem zero_x : (0 : Vec3 K).x = 0 := rfl

theorem zero_y : (0 : Vec3 K).y = 0 := rfl

theorem zero_z : (0 : Vec3 K).z = 0 := rfl

theorem smul_smul_eq (a b : K) (v : Vec3 K) : a • (b • v) = (a * b) • v := by
  cases v
  simp only [smul_def, mk.injEq]
  exact ⟨by ring, by ring, by ring⟩

theorem smul_congr {a b : K} (v : Vec3 K) (h : a = b) : a • v = b • v := by rw [h]

theorem dot_comm (a b : Vec3 K) : a.dot b = b.dot a := by
  cases a
  cases b
  simp only [dot]
  ring

theorem dot_sub_right (a b c : Vec3 K) : a.dot (b - c) = a.dot b - a.dot c := by
  cases a
  cases b
  cases c
  simp only [dot, sub_def]
  ring

theorem nrm2_sub_smul (v w : Vec3 K) (a : K) :
    (v - a • w).nrm2 = v.nrm2 - 2 * a * (v.dot w) + a * a * w.nrm2 := by
  cases v
  cases w
  simp only [nrm2, dot, sub_def, smul_def]
  ring

theorem nrm2_add_smul (v w : Vec3 K) (a : K) :
    (v + a • w).nrm2 = v.nrm2 + 2 * a * (v.dot w) + a * a * w.nrm2 := by
  cases v
  cases w
  simp only [nrm2, dot, add_def, smul_def]
  ring

theorem momentum_cancel (m1 m2 : K) (hm1 : m1 ≠ 0) (hm2 : m2 ≠ 0)
    (v1 v2 W : Vec3 K) :
    m1 • (v1 - (1 / m1) • W) + m2 • (v2 + (1 / m2) • W) = m1 • v1 + m2 • v2 := by
  cases v1
  cases v2
  cases W
  simp only [smul_def, sub_def, add_def, mk.injEq]
  refine ⟨?_, ?_, ?_⟩ <;> field_simp <;> ring

end Vec3

/-- C3: `SphereSphereInRoot` returns false whenever `rv ≥ 0` or the
discriminant `rv² − v²(r² − d²) ≤ 0`, and otherwise returns true and writes
`dt = (d² − r²) / (rv − √(rv² − v²(r² − d²)))` into the record. -/
theorem SphereSphereInRoot_spec (dat : CPDData ℝ) (d2 : ℝ) :
    (dat.rvdot ≥ 0 ∨ dat.rvdot * dat.rvdot - dat.v2 * (dat.r2 - d2) ≤ 0 →
      SphereSphereInRoot Real.sqrt dat d2 = none) ∧
    (dat.rvdot < 0 → 0 < dat.rvdot * dat.rvdot - dat.v2 * (dat.r2 - d2) →
      SphereSphereInRoot Real.sqrt dat d2 =
        some ((d2 - dat.r2) /
          (dat.rvdot - Real.sqrt (dat.rvdot * dat.rvdot - dat.v2 * (dat.r2 - d2))))) := by
  unfold SphereSphereInRoot
  constructor
  · rintro (h | h)
    · rw [if_neg (not_lt.mpr h)]
    · by_cases hrv : dat.rvdot < 0
      · rw [if_pos hrv]
        exact if_neg (not_lt.mpr h)
      · rw [if_neg hrv]
  · intro h1 h2
    rw [if_pos h1]
    exact if_pos h2

/-- Witness for C3 at concrete inputs: a non-approaching record is rejected,
and an approaching record with positive discriminant yields the stable-form
root. -/
theorem SphereSphereInRoot_spec_witness :
    SphereSphereInRoot Real.sqrt (⟨0, 0, 2, 1, 0⟩ : CPDData ℝ) 1 = none ∧
    SphereSphereInRoot Real.sqrt (⟨0, 0, 2, 1, -2⟩ : CPDData ℝ) 1 =
      some ((1 - 2) / (-2 - Real.sqrt ((-2) * (-2) - 1 * (2 - 1)))) :=
  ⟨(SphereSphereInRoot_spec ⟨0, 0, 2, 1, 0⟩ 1).1 (Or.inl (le_refl 0)),
   (SphereSphereInRoot_spec ⟨0, 0, 2, 1, -2⟩ 1).2 (by norm_num) (by norm_num)⟩

/-- C2: in `SmoothSpheresColl`, with exactly one infinite-mass sentinel
(`mass = 0`) the impulse is computed from the finite mass alone and applied
only to the finite-mass particle, leaving the sentinel particle untouched;
with both sentinels the recorded impulse is zeroed while the geometry is
computed with equal (unit) masses. -/
theorem SmoothSpheresColl_infiniteMass (e m : ℝ) (r1 r2 v1 v2 : Vec3 ℝ)
    (hm : m ≠ 0) :
    (SmoothSpheresColl e 0 m r1 r2 v1 v2).vel1 = v1 ∧
    (SmoothSpheresColl e 0 m r1 r2 v1 v2).vel2 =
      v2 + ((1 + e) * ((r1 - r2).dot (v1 - v2)) / (r1 - r2).nrm2) • (r1 - r2) ∧
    (SmoothSpheresColl e 0 m r1 r2 v1 v2).dP =
      (m * ((1 + e) * ((r1 - r2).dot (v1 - v2)) / (r1 - r2).nrm2)) • (r1 - r2) ∧
    (SmoothSpheresColl e m 0 r1 r2 v1 v2).vel2 = v2 ∧
    (SmoothSpheresColl e m 0 r1 r2 v1 v2).vel1 =
      v1 - ((1 + e) * ((r1 - r2).dot (v1 - v2)) / (r1 - r2).nrm2) • (r1 - r2) ∧
    (SmoothSpheresColl e m 0 r1 r2 v1 v2).dP =
      (m * ((1 + e) * ((r1 - r2).dot (v1 - v2)) / (r1 - r2).nrm2)) • (r1 - r2) ∧
    (SmoothSpheresColl e 0 0 r1 r2 v1 v2).dP = 0 ∧
    (SmoothSpheresColl e 0 0 r1 r2 v1 v2).vel1 =
      v1 - ((1 + e) * ((r1 - r2).dot (v1 - v2)) / (r1 - r2).nrm2 / 2) • (r1 - r2) ∧
    (SmoothSpheresColl e 0 0 r1 r2 v1 v2).vel2 =
      v2 + ((1 + e) * ((r1 - r2).dot (v1 - v2)) / (r1 - r2).nrm2 / 2) • (r1 - r2) := by
  have hc1 : SmoothSpheresColl e 0 m r1 r2 v1 v2 =
      ⟨v1,
       v2 + (1 / m) •
         ((m * ((1 + e) * ((r1 - r2).dot (v1 - v2)) / (r1 - r2).nrm2)) • (r1 - r2)),
       (m * ((1 + e) * ((r1 - r2).dot (v1 - v2)) / (r1 - r2).nrm2)) • (r1 - r2)⟩ := by
    unfold SmoothSpheresColl
    rw [if_pos ⟨rfl, hm⟩]
  have hc2 : SmoothSpheresColl e m 0 r1 r2 v1 v2 =
      ⟨v1 - (1 / m) •
         ((m * ((1 + e) * ((r1 - r2).dot (v1 - v2)) / (r1 - r2).nrm2)) • (r1 - r2)),
       v2,
       (m * ((1 + e) * ((r1 - r2).dot (v1 - v2)) / (r1 - r2).nrm2)) • (r1 - r2)⟩ := by
    unfold SmoothSpheresColl
    rw [if_neg (fun h => h.2 rfl), if_pos ⟨hm, rfl⟩]
  have hc3 : SmoothSpheresColl e 0 0 r1 r2 v1 v2 =
      ⟨v1 - ((1 : ℝ) / 1) •
         (((1 + e) * ((1 : ℝ) * 1 / (1 + 1)) * ((r1 - r2).dot (v1 - v2)) / (r1 - r2).nrm2) •
           (r1 - r2)),
       v2 + ((1 : ℝ) / 1) •
         (((1 + e) * ((1 : ℝ) * 1 / (1 + 1)) * ((r1 - r2).dot (v1 - v2)) / (r1 - r2).nrm2) •
           (r1 - r2)),
       0⟩ := by
    have hEq : (0 : ℝ) = 0 ∧ (0 : ℝ) = 0 := ⟨rfl, rfl⟩
    unfold SmoothSpheresColl
    rw [if_neg (fun h => h.2 rfl), if_neg (fun h => h.1 rfl)]
    dsimp only
    rw [if_pos hEq, if_pos hEq]
  refine ⟨by rw [hc1], ?_, by rw [hc1], by rw [hc2], ?_, by rw [hc2], by rw [hc3], ?_, ?_⟩
  · rw [hc1]
    show v2 + _ = v2 + _
    congr 1
    rw [Vec3.smul_smul_eq, one_div, inv_mul_cancel_left₀ hm]
  · rw [hc2]
    show v1 - _ = v1 - _
    congr 1
    rw [Vec3.smul_smul_eq, one_div, inv_mul_cancel_left₀ hm]
  · rw [hc3]
    show v1 - _ = v1 - _
    congr 1
    rw [Vec3.smul_smul_eq]
    exact Vec3.smul_congr _ (by ring)
  · rw [hc3]
    show v2 + _ = v2 + _
    congr 1
    rw [Vec3.smul_smul_eq]
    exact Vec3.smul_congr _ (by ring)

/-- Witness for C2: a concrete finite mass and kinematics, showing the
sentinel particle keeps its velocity. -/
theorem SmoothSpheresColl_infiniteMass_witness :
    (1 : ℝ) ≠ 0 ∧
    (SmoothSpheresColl 1 0 1 ⟨1, 0, 0⟩ 0 0 ⟨1, 0, 0⟩ : CollResult ℝ).vel1 = 0 :=
  ⟨one_ne_zero,
   (SmoothSpheresColl_infiniteMass 1 1 ⟨1, 0, 0⟩ 0 0 ⟨1, 0, 0⟩ one_ne_zero).1⟩

/-- C4: for two finite positive masses and restitution `e = 1`,
`SmoothSpheresColl` conserves the total momentum `m1·v1 + m2·v2` and the
total kinetic energy `½m1|v1|² + ½m2|v2|²` of the pair exactly. -/
theorem SmoothSpheresColl_conservation (m1 m2 : ℝ) (r1 r2 v1 v2 : Vec3 ℝ)
    (h1 : 0 < m1) (h2 : 0 < m2) (hr : (r1 - r2).nrm2 ≠ 0) :
    m1 • (SmoothSpheresColl 1 m1 m2 r1 r2 v1 v2).vel1 +
      m2 • (SmoothSpheresColl 1 m1 m2 r1 r2 v1 v2).vel2 = m1 • v1 + m2 • v2 ∧
    (1 / 2) * m1 * (SmoothSpheresColl 1 m1 m2 r1 r2 v1 v2).vel1.nrm2 +
      (1 / 2) * m2 * (SmoothSpheresColl 1 m1 m2 r1 r2 v1 v2).vel2.nrm2 =
      (1 / 2) * m1 * v1.nrm2 + (1 / 2) * m2 * v2.nrm2 := by
  have hm1 : m1 ≠ 0 := ne_of_gt h1
  have hm2 : m2 ≠ 0 := ne_of_gt h2
  have hsum : m1 + m2 ≠ 0 := ne_of_gt (by linarith)
  have hnn : ¬(m1 = 0 ∧ m2 = 0) := fun h => hm1 h.1
  have hres : SmoothSpheresColl 1 m1 m2 r1 r2 v1 v2 =
      ⟨v1 - (1 / m1) •
         (((1 + 1) * (m1 * m2 / (m1 + m2)) *
           ((r1 - r2).dot (v1 - v2)) / (r1 - r2).nrm2) • (r1 - r2)),
       v2 + (1 / m2) •
         (((1 + 1) * (m1 * m2 / (m1 + m2)) *
           ((r1 - r2).dot (v1 - v2)) / (r1 - r2).nrm2) • (r1 - r2)),
       ((1 + 1) * (m1 * m2 / (m1 + m2)) *
         ((r1 - r2).dot (v1 - v2)) / (r1 - r2).nrm2) • (r1 - r2)⟩ := by
    unfold SmoothSpheresColl
    rw [if_neg (fun h => hm1 h.1), if_neg (fun h => hm2 h.2)]
    dsimp only
    rw [if_neg hnn, if_neg hnn, if_neg hnn]
  constructor
  · rw [hres]
    exact Vec3.momentum_cancel m1 m2 hm1 hm2 v1 v2 _
  · rw [hres]
    dsimp only
    rw [Vec3.smul_smul_eq, Vec3.smul_smul_eq, Vec3.nrm2_sub_smul, Vec3.nrm2_add_smul,
      Vec3.dot_sub_right, Vec3.dot_comm v1 (r1 - r2), Vec3.dot_comm v2 (r1 - r2)]
    field_simp
    ring

/-- Witness for C4: unit masses and a head-on configuration with nonzero
separation. -/
theorem SmoothSpheresColl_conservation_witness :
    (0 : ℝ) < 1 ∧ ((⟨1, 0, 0⟩ : Vec3 ℝ) - 0).nrm2 ≠ 0 ∧
    ((1 : ℝ) • (SmoothSpheresColl 1 1 1 ⟨1, 0, 0⟩ 0 0 ⟨1, 0, 0⟩ : CollResult ℝ).vel1 +
        (1 : ℝ) • (SmoothSpheresColl 1 1 1 ⟨1, 0, 0⟩ 0 0 ⟨1, 0, 0⟩ : CollResult ℝ).vel2 =
        (1 : ℝ) • (0 : Vec3 ℝ) + (1 : ℝ) • (⟨1, 0, 0⟩ : Vec3 ℝ) ∧
      (1 / 2) * 1 * (SmoothSpheresColl 1 1 1 ⟨1, 0, 0⟩ 0 0 ⟨1, 0, 0⟩ : CollResult ℝ).vel1.nrm2 +
          (1 / 2) * 1 * (SmoothSpheresColl 1 1 1 ⟨1, 0, 0⟩ 0 0 ⟨1, 0, 0⟩ : CollResult ℝ).vel2.nrm2 =
        (1 / 2) * 1 * (0 : Vec3 ℝ).nrm2 + (1 / 2) * 1 * (⟨1, 0, 0⟩ : Vec3 ℝ).nrm2) :=
  ⟨one_pos,
   by simp only [Vec3.sub_def, Vec3.nrm2, Vec3.dot, Vec3.zero_def]; norm_num,
   SmoothSpheresColl_conservation 1 1 ⟨1, 0, 0⟩ 0 0 ⟨1, 0, 0⟩ one_pos one_pos
     (by simp only [Vec3.sub_def, Vec3.nrm2, Vec3.dot, Vec3.zero_def]; norm_num)⟩

/-- C8: the concrete scenario of two unit-mass spheres of diameter 1 at
`(-0.6,0,0)` and `(0.6,0,0)` with velocities `(1,0,0)` and `(-1,0,0)`:
`SphereSphereInRoot` reports `dt = 0.1`, and `SmoothSpheresColl` with `e = 1`
at the contact configuration swaps the two velocities. -/
theorem exampleScenario :
    SphereSphereInRoot Real.sqrt
        (mkCPD (⟨-0.6, 0, 0⟩ : Vec3 ℝ) ⟨0.6, 0, 0⟩ ⟨1, 0, 0⟩ ⟨-1, 0, 0⟩) 1 =
      some 0.1 ∧
    (SmoothSpheresColl 1 1 1
        (streamParticle (⟨⟨-0.6, 0, 0⟩, ⟨1, 0, 0⟩⟩ : Particle ℝ) 0.1).pos
        (streamParticle (⟨⟨0.6, 0, 0⟩, ⟨-1, 0, 0⟩⟩ : Particle ℝ) 0.1).pos
        ⟨1, 0, 0⟩ ⟨-1, 0, 0⟩).vel1 = ⟨-1, 0, 0⟩ ∧
    (SmoothSpheresColl 1 1 1
        (streamParticle (⟨⟨-0.6, 0, 0⟩, ⟨1, 0, 0⟩⟩ : Particle ℝ) 0.1).pos
        (streamParticle (⟨⟨0.6, 0, 0⟩, ⟨-1, 0, 0⟩⟩ : Particle ℝ) 0.1).pos
        ⟨1, 0, 0⟩ ⟨-1, 0, 0⟩).vel2 = ⟨1, 0, 0⟩ := by
  have hcpd : mkCPD (⟨-0.6, 0, 0⟩ : Vec3 ℝ) ⟨0.6, 0, 0⟩ ⟨1, 0, 0⟩ ⟨-1, 0, 0⟩ =
      ⟨⟨-1.2, 0, 0⟩, ⟨2, 0, 0⟩, 1.44, 4, -2.4⟩ := by
    unfold mkCPD
    dsimp only
    simp only [Vec3.sub_def, Vec3.nrm2, Vec3.dot, CPDData.mk.injEq, Vec3.mk.injEq]
    norm_num
  have hsqrt : Real.sqrt ((-2.4 : ℝ) * (-2.4) - 4 * (1.44 - 1)) = 2 := by
    rw [show (-2.4 : ℝ) * (-2.4) - 4 * (1.44 - 1) = 4 by norm_num,
      show (4 : ℝ) = 2 ^ 2 by norm_num, Real.sqrt_sq (by norm_num : (0 : ℝ) ≤ 2)]
  have hp1 : (streamParticle (⟨⟨-0.6, 0, 0⟩, ⟨1, 0, 0⟩⟩ : Particle ℝ) 0.1).pos =
      (⟨-0.5, 0, 0⟩ : Vec3 ℝ) := by
    unfold streamParticle
    simp only [Vec3.add_def, Vec3.smul_def, Vec3.mk.injEq]
    norm_num
  have hp2 : (streamParticle (⟨⟨0.6, 0, 0⟩, ⟨-1, 0, 0⟩⟩ : Particle ℝ) 0.1).pos =
      (⟨0.5, 0, 0⟩ : Vec3 ℝ) := by
    unfold streamParticle
    simp only [Vec3.add_def, Vec3.smul_def, Vec3.mk.injEq]
    norm_num
  have hcoll : SmoothSpheresColl 1 1 1 (⟨-0.5, 0, 0⟩ : Vec3 ℝ) ⟨0.5, 0, 0⟩
      ⟨1, 0, 0⟩ ⟨-1, 0, 0⟩ = ⟨⟨-1, 0, 0⟩, ⟨1, 0, 0⟩, ⟨2, 0, 0⟩⟩ := by
    unfold SmoothSpheresColl
    rw [if_neg (fun h => one_ne_zero h.1), if_neg (fun h => one_ne_zero h.2)]
    dsimp only
    simp only [Vec3.sub_def, Vec3.add_def, Vec3.smul_def, Vec3.dot, Vec3.nrm2,
      CollResult.mk.injEq, Vec3.mk.injEq]
    norm_num
  refine ⟨?_, ?_, ?_⟩
  · rw [hcpd]
    unfold SphereSphereInRoot
    rw [if_pos (show (⟨⟨-1.2, 0, 0⟩, ⟨2, 0, 0⟩, 1.44, 4, -2.4⟩ : CPDData ℝ).rvdot < 0
      by norm_num)]
    dsimp only
    rw [if_pos (show (0 : ℝ) < (-2.4) * (-2.4) - 4 * (1.44 - 1) by norm_num)]
    rw [hsqrt]
    norm_num
  · rw [hp1, hp2, hcoll]
  · rw [hp1, hp2, hcoll]

/-- C5: `SphereWellEvent` branches exactly as the code does: BOUNCE with a
reflective impulse when `ΔKE < 0` and the discriminant is negative, a
zero-impulse NON_EVENT when `ΔKE = 0`, otherwise WELL_KEDOWN / WELL_KEUP by
the sign of `ΔKE` with the quadratic root branch selected by the sign of
`rv`. -/
theorem SphereWellEvent_branches (deltaKE m1 m2 : ℝ) (r1 r2 v1 v2 : Vec3 ℝ) :
    (deltaKE < 0 →
      (r1 - r2).dot (v1 - v2) * (r1 - r2).dot (v1 - v2) +
          2 * (r1 - r2).nrm2 * deltaKE / (m1 * m2 / (m1 + m2)) < 0 →
      (SphereWellEvent Real.sqrt deltaKE m1 m2 r1 r2 v1 v2).eType = EEventType.BOUNCE ∧
      (SphereWellEvent Real.sqrt deltaKE m1 m2 r1 r2 v1 v2).dP =
        (2 * (m1 * m2 / (m1 + m2)) * (r1 - r2).dot (v1 - v2) / (r1 - r2).nrm2) •
          (r1 - r2)) ∧
    (deltaKE = 0 →
      (SphereWellEvent Real.sqrt deltaKE m1 m2 r1 r2 v1 v2).eType = EEventType.NON_EVENT ∧
      (SphereWellEvent Real.sqrt deltaKE m1 m2 r1 r2 v1 v2).dP = 0) ∧
    (deltaKE < 0 →
      0 ≤ (r1 - r2).dot (v1 - v2) * (r1 - r2).dot (v1 - v2) +
          2 * (r1 - r2).nrm2 * deltaKE / (m1 * m2 / (m1 + m2)) →
      (SphereWellEvent Real.sqrt deltaKE m1 m2 r1 r2 v1 v2).eType = EEventType.WELL_KEDOWN) ∧
    (0 < deltaKE →
      (SphereWellEvent Real.sqrt deltaKE m1 m2 r1 r2 v1 v2).eType = EEventType.WELL_KEUP) ∧
    (¬(deltaKE < 0 ∧
        (r1 - r2).dot (v1 - v2) * (r1 - r2).dot (v1 - v2) +
          2 * (r1 - r2).nrm2 * deltaKE / (m1 * m2 / (m1 + m2)) < 0) →
      deltaKE ≠ 0 → (r1 - r2).dot (v1 - v2) < 0 →
      (SphereWellEvent Real.sqrt deltaKE m1 m2 r1 r2 v1 v2).dP =
        ((2 * deltaKE /
          (Real.sqrt ((r1 - r2).dot (v1 - v2) * (r1 - r2).dot (v1 - v2) +
            2 * (r1 - r2).nrm2 * deltaKE / (m1 * m2 / (m1 + m2))) -
           (r1 - r2).dot (v1 - v2))) • (r1 - r2))) ∧
    (¬(deltaKE < 0 ∧
        (r1 - r2).dot (v1 - v2) * (r1 - r2).dot (v1 - v2) +
          2 * (r1 - r2).nrm2 * deltaKE / (m1 * m2 / (m1 + m2)) < 0) →
      deltaKE ≠ 0 → 0 ≤ (r1 - r2).dot (v1 - v2) →
      (SphereWellEvent Real.sqrt deltaKE m1 m2 r1 r2 v1 v2).dP =
        ((-2 * deltaKE /
          ((r1 - r2).dot (v1 - v2) +
           Real.sqrt ((r1 - r2).dot (v1 - v2) * (r1 - r2).dot (v1 - v2) +
            2 * (r1 - r2).nrm2 * deltaKE / (m1 * m2 / (m1 + m2))))) • (r1 - r2))) := by
  refine ⟨?_, ?_, ?_, ?_, ?_, ?_⟩
  · intro hd hs
    unfold SphereWellEvent
    dsimp only
    rw [if_pos ⟨hd, hs⟩]
    exact ⟨rfl, rfl⟩
  · intro hd
    unfold SphereWellEvent
    dsimp only
    rw [if_neg (fun h => absurd hd (ne_of_lt h.1)), if_pos hd]
    exact ⟨rfl, rfl⟩
  · intro hd hs
    unfold SphereWellEvent
    dsimp only
    rw [if_neg (fun h => absurd hs (not_le.mpr h.2)), if_neg (ne_of_lt hd)]
    dsimp only
    rw [if_pos hd]
  · intro hd
    unfold SphereWellEvent
    dsimp only
    rw [if_neg (fun h => absurd hd (not_lt.mpr (le_of_lt h.1))), if_neg (ne_of_gt hd)]
    dsimp only
    rw [if_neg (not_lt.mpr (le_of_lt hd))]
  · intro hns hne hrv
    unfold SphereWellEvent
    dsimp only
    rw [if_neg hns, if_neg hne]
    dsimp only
    rw [if_pos hrv]
  · intro hns hne hrv
    unfold SphereWellEvent
    dsimp only
    rw [if_neg hns, if_neg hne]
    dsimp only
    rw [if_neg (not_lt.mpr hrv)]

/-- Witness for C5: a BOUNCE at a concrete trapped configuration and a
NON_EVENT at `ΔKE = 0`. -/
theorem SphereWellEvent_branches_witness :
    ((SphereWellEvent Real.sqrt (-1) 2 2 ⟨1, 0, 0⟩ 0 0 ⟨1, 0, 0⟩ : WellResult ℝ).eType =
        EEventType.BOUNCE ∧
      (SphereWellEvent Real.sqrt (-1) 2 2 ⟨1, 0, 0⟩ 0 0 ⟨1, 0, 0⟩ : WellResult ℝ).dP =
        (2 * ((2 : ℝ) * 2 / (2 + 2)) *
          ((⟨1, 0, 0⟩ : Vec3 ℝ) - 0).dot ((0 : Vec3 ℝ) - ⟨1, 0, 0⟩) /
          ((⟨1, 0, 0⟩ : Vec3 ℝ) - 0).nrm2) • ((⟨1, 0, 0⟩ : Vec3 ℝ) - 0)) ∧
    ((SphereWellEvent Real.sqrt 0 2 2 ⟨1, 0, 0⟩ 0 0 ⟨1, 0, 0⟩ : WellResult ℝ).eType =
        EEventType.NON_EVENT ∧
      (SphereWellEvent Real.sqrt 0 2 2 ⟨1, 0, 0⟩ 0 0 ⟨1, 0, 0⟩ : WellResult ℝ).dP = 0) :=
  ⟨(SphereWellEvent_branches (-1) 2 2 ⟨1, 0, 0⟩ 0 0 ⟨1, 0, 0⟩).1 (by norm_num)
      (by simp only [Vec3.sub_def, Vec3.zero_def, Vec3.dot, Vec3.nrm2]; norm_num),
   (SphereWellEvent_branches 0 2 2 ⟨1, 0, 0⟩ 0 0 ⟨1, 0, 0⟩).2.1 rfl⟩

/-- C6: `CubeCubeInRoot` returns false whenever the largest-magnitude
component of `rij` is not shrinking; otherwise (with every `vij` component
nonzero, so the per-axis times are finite) it reports contact with `dt` the
max-of-entries time exactly when it is strictly before the min-of-exits
time. -/
theorem CubeCubeInRoot_spec (dat : CPDData ℝ) (d : ℝ) :
    (dat.rij.comp (largedim dat.rij) * dat.vij.comp (largedim dat.rij) ≥ 0 →
      CubeCubeInRoot dat d = none) ∧
    (dat.rij.comp (largedim dat.rij) * dat.vij.comp (largedim dat.rij) < 0 →
      (∀ i : Fin 3, dat.vij.comp i ≠ 0) →
      (cubeEntryTime dat d < cubeExitTime dat d →
        CubeCubeInRoot dat d = some (cubeEntryTime dat d)) ∧
      (cubeExitTime dat d ≤ cubeEntryTime dat d →
        CubeCubeInRoot dat d = none)) := by
  constructor
  · intro h
    unfold CubeCubeInRoot
    rw [if_pos h]
  · intro h _
    constructor
    · intro hlt
      unfold CubeCubeInRoot
      rw [if_neg (not_le.mpr h), if_neg (not_le.mpr hlt)]
    · intro hge
      unfold CubeCubeInRoot
      rw [if_neg (not_le.mpr h), if_pos hge]

/-- Witness for C6: a separating record is rejected, and an approaching
record with nonzero `vij` components and entry before exit yields contact at
the entry time. -/
theorem CubeCubeInRoot_spec_witness :
    CubeCubeInRoot (⟨⟨4, 1, 1⟩, ⟨1, 1, 1⟩, 0, 0, 0⟩ : CPDData ℝ) 1 = none ∧
    CubeCubeInRoot (⟨⟨2, 0, 0⟩, ⟨-1, 1 / 2, -1 / 2⟩, 0, 0, 0⟩ : CPDData ℝ) 1 =
      some (cubeEntryTime (⟨⟨2, 0, 0⟩, ⟨-1, 1 / 2, -1 / 2⟩, 0, 0, 0⟩ : CPDData ℝ) 1) :=
  ⟨(CubeCubeInRoot_spec ⟨⟨4, 1, 1⟩, ⟨1, 1, 1⟩, 0, 0, 0⟩ 1).1
      (by norm_num [largedim, Vec3.comp]),
   ((CubeCubeInRoot_spec ⟨⟨2, 0, 0⟩, ⟨-1, 1 / 2, -1 / 2⟩, 0, 0, 0⟩ 1).2
      (by norm_num [largedim, Vec3.comp])
      (by intro i; fin_cases i <;> norm_num [Vec3.comp])).1
      (by norm_num [cubeEntryTime, cubeExitTime, Vec3.comp, min_def, max_def])⟩

/-- C7: NaN collision-time results are encoded as "no event":
`SphereSphereOutRoot` sets `dt = +∞` and returns false when its computed root
is NaN, and `getCylinderWallCollision` returns `+∞` when its computed root is
NaN. -/
theorem nan_maps_to_noEvent (dat : CPDData ℝ) (d2 : ℝ)
    (pos velIn wallLoc wallNorm : Vec3 ℝ) (radius : ℝ) :
    (SphereSphereOutRootVal Real.sqrt dat d2 = RVal.nan →
      SphereSphereOutRoot Real.sqrt dat d2 = (RVal.pinf, false)) ∧
    (cylinderCollisionRoot Real.sqrt pos velIn wallLoc wallNorm radius = RVal.nan →
      getCylinderWallCollision Real.sqrt pos velIn wallLoc wallNorm radius =
        RVal.pinf) := by
  constructor
  · intro h
    unfold SphereSphereOutRoot
    rw [h]
    rfl
  · intro h
    unfold getCylinderWallCollision
    rw [h]
    rfl

/-- Witness for C7: a record whose exit-root discriminant is negative (NaN
from the square root) and a cylinder query with zero transverse velocity off
the surface (NaN from `0/0`). -/
theorem nan_maps_to_noEvent_witness :
    SphereSphereOutRoot Real.sqrt (⟨0, 0, 2, 1, 0⟩ : CPDData ℝ) 1 =
      (RVal.pinf, false) ∧
    getCylinderWallCollision Real.sqrt (⟨2, 0, 0⟩ : Vec3 ℝ) 0 0 ⟨0, 0, 1⟩ 1 =
      RVal.pinf :=
  ⟨(nan_maps_to_noEvent ⟨0, 0, 2, 1, 0⟩ 1 ⟨2, 0, 0⟩ 0 0 ⟨0, 0, 1⟩ 1).1
      (by norm_num [SphereSphereOutRootVal, RVal.sqrtV, RVal.sub, RVal.div]),
   (nan_maps_to_noEvent ⟨0, 0, 2, 1, 0⟩ 1 ⟨2, 0, 0⟩ 0 0 ⟨0, 0, 1⟩ 1).2
      (by norm_num [cylinderCollisionRoot, RVal.sqrtV, RVal.sub, RVal.div,
        Vec3.sub_def, Vec3.smul_def, Vec3.dot, Vec3.nrm2, Vec3.zero_x, Vec3.zero_y,
        Vec3.zero_z, Real.sqrt_zero])⟩

/-- Counterexample to C1 as stated: with the registry already at
`INITIALISED`, `addInteraction` does not fail — it reports no error and
appends the interaction to the owned collection. -/
theorem addInteraction_after_initialisation_succeeds :
    statusGE sampleDynamics.status SimStatus.INITIALISED = true ∧
    (sampleDynamics.addInteraction ⟨"HardSpheres", fun _ => true⟩).2 = none ∧
    (sampleDynamics.addInteraction ⟨"HardSpheres", fun _ => true⟩).1.interactions.length
      = 1 :=
  ⟨rfl, rfl, rfl⟩

/-- C1 (amended): once status ≥ `INITIALISED`, `addSpecies`, `addGlobal`,
`addLocal`, `addSystem` and `addStructure` each fail with an error and leave
the registry unchanged; `addInteraction` performs no status check — it
reports no error and appends the interaction regardless of status. -/
theorem add_after_initialisation (d : Dynamics) (sp : Species) (g : GlobalEv)
    (l : LocalEv) (s : SystemEv) (t : Topology) (i : Interaction)
    (h : statusGE d.status SimStatus.INITIALISED = true) :
    (d.addSpecies sp).1 = d ∧ (d.addSpecies sp).2.isSome = true ∧
    (d.addGlobal g).1 = d ∧ (d.addGlobal g).2.isSome = true ∧
    (d.addLocal l).1 = d ∧ (d.addLocal l).2.isSome = true ∧
    (d.addSystem s).1 = d ∧ (d.addSystem s).2.isSome = true ∧
    (d.addStructure t).1 = d ∧ (d.addStructure t).2.isSome = true ∧
    (d.addInteraction i).2 = none ∧
    (d.addInteraction i).1.interactions = d.interactions ++ [i] := by
  simp [Dynamics.addSpecies, Dynamics.addGlobal, Dynamics.addLocal,
    Dynamics.addSystem, Dynamics.addStructure, Dynamics.addInteraction, h]

/-- Witness for the amended C1 at a concrete initialised registry. -/
theorem add_after_initialisation_witness :
    statusGE sampleDynamics.status SimStatus.INITIALISED = true ∧
    (sampleDynamics.addSpecies ⟨"Bulk", none⟩).1 = sampleDynamics ∧
    (sampleDynamics.addSpecies ⟨"Bulk", none⟩).2.isSome = true ∧
    (sampleDynamics.addGlobal ⟨"Cells"⟩).1 = sampleDynamics :=
  ⟨rfl,
   (add_after_initialisation sampleDynamics ⟨"Bulk", none⟩ ⟨"Cells"⟩ ⟨"Wall"⟩
      ⟨"Ticker"⟩ ⟨"Chain"⟩ ⟨"HardSpheres", fun _ => true⟩ rfl).1,
   (add_after_initialisation sampleDynamics ⟨"Bulk", none⟩ ⟨"Cells"⟩ ⟨"Wall"⟩
      ⟨"Ticker"⟩ ⟨"Chain"⟩ ⟨"HardSpheres", fun _ => true⟩ rfl).2.1,
   (add_after_initialisation sampleDynamics ⟨"Bulk", none⟩ ⟨"Cells"⟩ ⟨"Wall"⟩
      ⟨"Ticker"⟩ ⟨"Chain"⟩ ⟨"HardSpheres", fun _ => true⟩ rfl).2.2.1⟩

/-- C10: copy-constructing a Dynamics registry copies only the
boundary-condition handle and the units (besides the base simulation handle):
for every source registry the copy has empty species, interaction, system,
global, local and topology collections and no Liouvillean set. -/
theorem copyCtor_spec (d : Dynamics) :
    d.copyCtor.p_BC = d.p_BC ∧ d.copyCtor.units = d.units ∧
    d.copyCtor.species = [] ∧ d.copyCtor.interactions = [] ∧
    d.copyCtor.systems = [] ∧ d.copyCtor.globals = [] ∧
    d.copyCtor.locals = [] ∧ d.copyCtor.topology = [] ∧
    d.copyCtor.p_liouvillean = none :=
  ⟨rfl, rfl, rfl, rfl, rfl, rfl, rfl, rfl, rfl⟩

/-- C9: `streamParticle` advances the position by `velocity * dt`, leaves the
velocity unchanged, and streaming by `dt` then by `-dt` restores the original
position exactly. -/
theorem streamParticle_roundtrip (p : Particle ℝ) (dt : ℝ) :
    (streamParticle p dt).pos = p.pos + dt • p.vel ∧
    (streamParticle p dt).vel = p.vel ∧
    streamParticle (streamParticle p dt) (-dt) = p := by
  refine ⟨rfl, rfl, ?_⟩
  simp only [streamParticle, Vec3.smul_def, Vec3.add_def]
  cases p with
  | mk pos vel =>
    cases pos
    cases vel
    simp only [Particle.mk.injEq, Vec3.mk.injEq]
    refine ⟨⟨by ring, by ring, by ring⟩, trivial⟩

end DynamO
